import Mathlib

/-!
Shallow embedding of `src/rust/net/src/infra.rs` (libsignal's client network
infrastructure layer): route descriptors (`ConnectionParams`), HTTP request
decorators, ALPN wire encoding, connection info, and multi-route endpoint
construction.  Machine integers are modelled as `Nat`; fallible / panicking
code returns `Option`.  Types used by `infra.rs` that come from external
crates (`std`, `http`, `url`) or from repository modules not present under
`src/` are modelled here; the latter carry a `Modelled from the spec:` note.
-/

namespace SignalNetInfra

/-- Model of `std::time::Duration` (only its identity matters here). -/
abbrev Duration := Nat

/-- Model of `std::num::NonZeroU16`: a 16-bit unsigned integer that is never zero. -/
abbrev NonZeroU16 := {n : Nat // 0 < n ∧ n < 65536}

/-- Model of `http::header::HeaderName` (an opaque validated token). -/
abbrev HeaderName := String

/-- Model of `http::header::HeaderValue` (an opaque validated byte string). -/
abbrev HeaderValue := String

/-- Model of `http::uri::Parts` / `http::Uri`: the three components
`infra.rs` manipulates.  `path_and_query` is kept as the raw string. -/
structure Uri where
  scheme : Option String
  authority : Option String
  path_and_query : Option String
  deriving DecidableEq

/-- Byte allowed in the path section of an `http::uri::PathAndQuery`
(the character class accepted by the `http` crate's parser). -/
def isPathChar (c : Char) : Bool :=
  let b := c.toNat
  b == 0x21 || (0x24 ≤ b && b ≤ 0x3B) || b == 0x3D ||
    (0x40 ≤ b && b ≤ 0x5F) || (0x61 ≤ b && b ≤ 0x7A) || b == 0x7C || b == 0x7E

/-- Byte allowed in the query section of an `http::uri::PathAndQuery`. -/
def isQueryChar (c : Char) : Bool :=
  let b := c.toNat
  b == 0x21 || (0x24 ≤ b && b ≤ 0x3B) || b == 0x3D || (0x3F ≤ b && b ≤ 0x7E)

/-- Scanner for `PathAndQuery` parsing: validates the path section, switches
to the query section at the first unescaped question mark, and truncates at a
fragment marker, mirroring the `http` crate's `PathAndQuery::from_shared`. -/
def pqScan : Bool → List Char → Option (List Char)
  | _, [] => some []
  | inQuery, c :: rest =>
    if c == '#' then some []
    else if !inQuery && c == '?' then
      Option.map (fun t => '?' :: t) (pqScan true rest)
    else if (if inQuery then isQueryChar c else isPathChar c) then
      Option.map (fun t => c :: t) (pqScan inQuery rest)
    else none

/-- Model of `http::uri::PathAndQuery::from_str`: validates the string and
returns it with any fragment removed, or fails on an invalid character. -/
def PathAndQuery.from_str (s : String) : Option String :=
  Option.map (fun cs => String.mk cs) (pqScan false s.toList)

/-- Model of `http::Uri::from_parts`: a scheme requires an authority and a
path-and-query; an authority without a scheme forbids a path-and-query. -/
def Uri.from_parts (parts : Uri) : Option Uri :=
  match parts.scheme with
  | some _ =>
    match parts.authority, parts.path_and_query with
    | some _, some _ => some parts
    | _, _ => none
  | none =>
    match parts.authority, parts.path_and_query with
    | some _, some _ => none
    | _, _ => some parts

/-- Model of `http::Uri::path`: the path section of the path-and-query
component, with the empty path rendered as a single slash. -/
def Uri.path (u : Uri) : String :=
  match u.path_and_query with
  | none => "/"
  | some pq =>
    let p := String.mk (pq.toList.takeWhile (fun c => c != '?'))
    if p = "" then "/" else p

/-- Model of `http::request::Builder`: the URI (absent until set) and the
accumulated header list, the two pieces of state `infra.rs` touches. -/
structure Builder where
  uri : Option Uri
  headers : List (HeaderName × HeaderValue)
  deriving DecidableEq

/-- Model of `http::request::Builder::header`: appends one header. -/
def Builder.header (b : Builder) (name : HeaderName) (value : HeaderValue) : Builder :=
  { b with headers := b.headers ++ [(name, value)] }

/-- A collection of commonly used decorators for HTTP requests
(`HttpRequestDecorator` in `infra.rs`).  `Generic` carries an arbitrary
builder transformation, as the Rust function pointer does. -/
inductive HttpRequestDecorator where
  | Header (name : HeaderName) (value : HeaderValue)
  | HeaderMap (header_map : List (HeaderName × HeaderValue))
  | PathPrefix (pfx : String)
  | Generic (f : Builder → Builder)

/-- The path-and-query string built by the `PathPrefix` arm of
`HttpRequestDecorator::decorate_request`: the prefix prepended to the whole
existing path-and-query, or the prefix alone when there is none. -/
def decoratedPq (pfx : String) (uri : Uri) : String :=
  match uri.path_and_query with
  | some pq => pfx ++ pq
  | none => pfx

/-- `HttpRequestDecorator::decorate_request` from `infra.rs`.  The three
`expect` calls of the `PathPrefix` arm (missing URI, invalid path-and-query,
invalid rebuilt URI) are panics, modelled as `none`. -/
def HttpRequestDecorator.decorate_request : HttpRequestDecorator → Builder → Option Builder
  | .Generic f, request_builder => some (f request_builder)
  | .Header name value, request_builder => some (request_builder.header name value)
  | .HeaderMap header_map, request_builder =>
    some (header_map.foldl (fun builder nv => builder.header nv.1 nv.2) request_builder)
  | .PathPrefix pfx, request_builder =>
    match request_builder.uri with
    | none => none
    | some uri =>
      match PathAndQuery.from_str (decoratedPq pfx uri) with
      | none => none
      | some pq2 =>
        match Uri.from_parts { uri with path_and_query := some pq2 } with
        | none => none
        | some u2 => some { request_builder with uri := some u2 }

/-- `HttpRequestDecoratorSeq` from `infra.rs`: an ordered sequence of
decorators (the Rust tuple struct's single `Vec` field). -/
structure HttpRequestDecoratorSeq where
  decorators : List HttpRequestDecorator

/-- The `Default` instance of `HttpRequestDecoratorSeq`: the empty sequence. -/
def HttpRequestDecoratorSeq.default : HttpRequestDecoratorSeq := ⟨[]⟩

/-- `HttpRequestDecoratorSeq::add`: push one decorator at the end. -/
def HttpRequestDecoratorSeq.add (s : HttpRequestDecoratorSeq) (decorator : HttpRequestDecorator) :
    HttpRequestDecoratorSeq :=
  ⟨s.decorators ++ [decorator]⟩

/-- `HttpRequestDecoratorSeq::decorate_request` from `infra.rs`: a left fold
of the element-wise `decorate_request` over the sequence (in the `Option`
monad because an element's decoration can panic). -/
def HttpRequestDecoratorSeq.decorate_request (s : HttpRequestDecoratorSeq)
    (request_builder : Builder) : Option Builder :=
  List.foldlM (fun rb dec => HttpRequestDecorator.decorate_request dec rb) request_builder
    s.decorators

/-- Type of the route used for the connection (`RouteType` in `infra.rs`),
including the test-only variant. -/
inductive RouteType where
  | Direct
  | ProxyF
  | ProxyG
  | TlsProxy
  | Test
  deriving DecidableEq

/-- The `strum` lowercase `Display` rendering of `RouteType`. -/
def RouteType.display : RouteType → String
  | .Direct => "direct"
  | .ProxyF => "proxyf"
  | .ProxyG => "proxyg"
  | .TlsProxy => "tlsproxy"
  | .Test => "test"

/-- Source for the result of a hostname lookup (`DnsSource` in `infra.rs`),
including the test-only variant. -/
inductive DnsSource where
  | Cache
  | UdpLookup
  | DnsOverHttpsLookup
  | SystemLookup
  | Static
  | Test
  deriving DecidableEq

/-- The `strum` lowercase `Display` rendering of `DnsSource`. -/
def DnsSource.display : DnsSource → String
  | .Cache => "cache"
  | .UdpLookup => "udplookup"
  | .DnsOverHttpsLookup => "dnsoverhttpslookup"
  | .SystemLookup => "systemlookup"
  | .Static => "static"
  | .Test => "test"

/-- Model of `url::Host`: a domain name or a concrete IPv4/IPv6 address
(addresses abstracted to their numeric value). -/
inductive Host where
  | Domain (name : String)
  | Ipv4 (addr : Nat)
  | Ipv6 (addr : Nat)
  deriving DecidableEq

/-- `IpType` from `infra.rs`. -/
inductive IpType where
  | Unknown
  | V4
  | V6
  deriving DecidableEq

/-- `IpType::from_host` from `infra.rs`. -/
def IpType.from_host : Host → IpType
  | .Domain _ => .Unknown
  | .Ipv4 _ => .V4
  | .Ipv6 _ => .V6

/-- The `Debug` rendering of `IpType` (used by `ConnectionInfo::description`). -/
def IpType.debugFmt : IpType → String
  | .Unknown => "Unknown"
  | .V4 => "V4"
  | .V6 => "V6"

/-- Modelled from the spec: trust-anchor set for a connection
(`crate::infra::certs::RootCertificates`, whose module is not under `src/`). -/
structure RootCertificates where
  anchors : List String
  deriving DecidableEq

/-- `ConnectionParams` from `infra.rs`: all information required to establish
an HTTP connection to a remote endpoint. -/
structure ConnectionParams where
  route_type : RouteType
  sni : String
  host : String
  port : NonZeroU16
  http_request_decorator : HttpRequestDecoratorSeq
  certs : RootCertificates
  connection_confirmation_header : Option HeaderName

/-- `ConnectionParams::new` from `infra.rs`. -/
def ConnectionParams.new (route_type : RouteType) (sni : String) (host : String)
    (port : NonZeroU16) (http_request_decorator : HttpRequestDecoratorSeq)
    (certs : RootCertificates) : ConnectionParams :=
  { route_type := route_type, sni := sni, host := host, port := port,
    http_request_decorator := http_request_decorator, certs := certs,
    connection_confirmation_header := none }

/-- `ConnectionParams::with_decorator`: push one decorator onto the sequence. -/
def ConnectionParams.with_decorator (p : ConnectionParams)
    (decorator : HttpRequestDecorator) : ConnectionParams :=
  { p with http_request_decorator := ⟨p.http_request_decorator.decorators ++ [decorator]⟩ }

/-- `ConnectionParams::with_certs`: replace the trust anchors. -/
def ConnectionParams.with_certs (p : ConnectionParams) (certs : RootCertificates) :
    ConnectionParams :=
  { p with certs := certs }

/-- `ConnectionParams::with_confirmation_header`: set the confirmation header. -/
def ConnectionParams.with_confirmation_header (p : ConnectionParams)
    (header : HeaderName) : ConnectionParams :=
  { p with connection_confirmation_header := some header }

/-- `ConnectionInfo` from `infra.rs`: exactly the route type, the DNS source
and the address used to establish the connection. -/
structure ConnectionInfo where
  route_type : RouteType
  dns_source : DnsSource
  address : Host
  deriving DecidableEq

/-- `ConnectionInfo::description` from `infra.rs`: formats the route type, the
DNS source and the IP type, the last computed on demand from the address. -/
def ConnectionInfo.description (c : ConnectionInfo) : String :=
  "route=" ++ c.route_type.display ++ ";dns_source=" ++ c.dns_source.display ++
    ";ip_type=" ++ ( IpType.from_host c.address).debugFmt

/-- A single ALPN list entry (`Alpn` in `infra.rs`). -/
inductive Alpn where
  | Http1_1
  | Http2
  deriving DecidableEq

/-- `AsRef<[u8]> for Alpn`: the length-delimited wire form, as the byte
literals `b"\x08http/1.1"` and `b"\x02h2"` from `infra.rs`. -/
def Alpn.as_ref : Alpn → List Nat
  | .Http1_1 => [0x08, 0x68, 0x74, 0x74, 0x70, 0x2F, 0x31, 0x2E, 0x31]
  | .Http2 => [0x02, 0x68, 0x32]

/-- The ASCII bytes of a string (to spell out what the wire tokens encode). -/
def stringBytes (s : String) : List Nat := s.toList.map Char.toNat

/-- Modelled from the spec: the process-wide network-change broadcast handle
(`crate::utils::ObservableEvent`, whose module is not under `src/`); only its
identity matters to the constructors modelled here. -/
structure ObservableEvent where
  id : Nat
  deriving DecidableEq

/-- Modelled from the spec: websocket configuration
(`crate::infra::ws::WebSocketConfig`, whose module is not under `src/`), with
the fields `make_ws_config` populates; the `tungstenite` protocol config is
abstracted away. -/
structure WebSocketConfig where
  endpoint : String
  max_connection_time : Duration
  keep_alive_interval : Duration
  max_idle_time : Duration

/-- Modelled from the spec: the Single-Route Throttling Connection Manager
(`crate::infra::connection_manager`, not under `src/`) owns retry/backoff
state for exactly one route; its constructor records the route's params and
the per-attempt timeout (backoff state starts empty and is irrelevant to the
construction claims, so it is omitted). -/
structure SingleRouteThrottlingConnectionManager where
  connection_params : ConnectionParams
  connect_timeout : Duration

/-- Modelled from the spec: `SingleRouteThrottlingConnectionManager::new`
stores the route descriptor and the per-attempt timeout; the network-change
event is only subscribed to, leaving no trace in the recorded state. -/
def SingleRouteThrottlingConnectionManager.new (connection_params : ConnectionParams)
    (connect_timeout : Duration) (network_changed_event : ObservableEvent) :
    SingleRouteThrottlingConnectionManager :=
  let _ := network_changed_event
  { connection_params := connection_params, connect_timeout := connect_timeout }

/-- Modelled from the spec: the Multi-Route Connection Manager
(`crate::infra::connection_manager`, not under `src/`) holds an ordered
collection of single-route managers, in caller-specified preference order. -/
structure MultiRouteConnectionManager where
  route_managers : List SingleRouteThrottlingConnectionManager

/-- Modelled from the spec: `MultiRouteConnectionManager::new` stores the
given ordered collection of single-route managers. -/
def MultiRouteConnectionManager.new
    (route_managers : List SingleRouteThrottlingConnectionManager) :
    MultiRouteConnectionManager :=
  { route_managers := route_managers }

/-- `EndpointConnection` from `infra.rs`. -/
structure EndpointConnection (C : Type) where
  manager : C
  config : WebSocketConfig

/-- `EndpointConnection::new_multi` from `infra.rs`: wraps each route's
params into a single-route manager with the shared timeout and composes them
into a multi-route manager. -/
def EndpointConnection.new_multi (connection_params : List ConnectionParams)
    (one_route_connect_timeout : Duration) (config : WebSocketConfig)
    (network_changed_event : ObservableEvent) :
    EndpointConnection MultiRouteConnectionManager :=
  { manager :=
      MultiRouteConnectionManager.new
        (connection_params.map (fun params =>
          SingleRouteThrottlingConnectionManager.new params one_route_connect_timeout
            network_changed_event)),
    config := config }

/-- Sequential application of a list of decorators in list order, stopping at
the first panic: the reference form claims compare the fold against. -/
def decorateSequentially : List HttpRequestDecorator → Builder → Option Builder
  | [], b => some b
  | d :: ds, b =>
    match HttpRequestDecorator.decorate_request d b with
    | some b2 => decorateSequentially ds b2
    | none => none

/-- The left fold of `HttpRequestDecoratorSeq::decorate_request` coincides
with applying the decorators one after another in list order. -/
theorem foldlM_decorate_eq_sequential (l : List HttpRequestDecorator) (b : Builder) :
    List.foldlM (fun rb dec => HttpRequestDecorator.decorate_request dec rb) b l
      = decorateSequentially l b := by
  induction l generalizing b with
  | nil => rfl
  | cons d ds ih =>
    rw [List.foldlM_cons]
    cases hd : HttpRequestDecorator.decorate_request d b with
    | none => simp [decorateSequentially, hd]
    | some b2 => simp [decorateSequentially, hd, ih]

/-- Sequential decoration distributes over list concatenation. -/
theorem decorateSequentially_append (l1 l2 : List HttpRequestDecorator) (b : Builder) :
    decorateSequentially (l1 ++ l2) b
      = (decorateSequentially l1 b).bind (fun b2 => decorateSequentially l2 b2) := by
  induction l1 generalizing b with
  | nil => rfl
  | cons d ds ih =>
    simp only [List.cons_append, decorateSequentially]
    cases hd : HttpRequestDecorator.decorate_request d b with
    | none => rfl
    | some b2 => exact ih b2

/-- C1: `EndpointConnection::new_multi` preserves the caller-specified route
order: it wraps each `ConnectionParams`, in the given iteration order, into
exactly one `SingleRouteThrottlingConnectionManager` built with the shared
`one_route_connect_timeout`, and composes them into a
`MultiRouteConnectionManager` holding one single-route manager per configured
route in that same order. -/
theorem new_multi_preserves_route_order (ps : List ConnectionParams) (t : Duration)
    (cfg : WebSocketConfig) (ev : ObservableEvent) :
    ( EndpointConnection.new_multi ps t cfg ev).manager
        = MultiRouteConnectionManager.new
            (ps.map (fun params => SingleRouteThrottlingConnectionManager.new params t ev))
      ∧ ( EndpointConnection.new_multi ps t cfg ev).manager.route_managers.length = ps.length
      ∧ ∀ i : Nat, ( EndpointConnection.new_multi ps t cfg ev).manager.route_managers[i]?
          = ps[i]?.map
              (fun params => SingleRouteThrottlingConnectionManager.new params t ev) := by
  refine ⟨rfl, ?_, ?_⟩
  · simp [EndpointConnection.new_multi, MultiRouteConnectionManager.new]
  · intro i
    simp [EndpointConnection.new_multi, MultiRouteConnectionManager.new, List.getElem?_map]

/-- C2: for every request builder and decorator sequence,
`HttpRequestDecoratorSeq::decorate_request` is the left fold of the
element-wise decoration over the sequence, and its result equals the
sequential application of the individual decorators in list order. -/
theorem decorate_request_is_left_fold (s : HttpRequestDecoratorSeq) (b : Builder) :
    s.decorate_request b
        = List.foldlM (fun rb dec => HttpRequestDecorator.decorate_request dec rb) b
            s.decorators
      ∧ s.decorate_request b = decorateSequentially s.decorators b :=
  ⟨rfl, foldlM_decorate_eq_sequential s.decorators b⟩

/-- C3: a `PathPrefix` decorator with prefix `/chat` turns a request whose
URI path is `/v1/endpoint` into one whose path is `/chat/v1/endpoint`, and a
request whose path is `/` into one whose path is `/chat/`, for any scheme,
authority and headers. -/
theorem path_prefix_concrete_paths :
    (∀ (sch au : String) (hs : List (HeaderName × HeaderValue)),
        ((( HttpRequestDecorator.PathPrefix "/chat").decorate_request
            ⟨some ⟨some sch, some au, some "/v1/endpoint"⟩, hs⟩).bind
          (fun b2 => Option.map Uri.path b2.uri)) = some "/chat/v1/endpoint")
  ∧ (∀ (sch au : String) (hs : List (HeaderName × HeaderValue)),
        ((( HttpRequestDecorator.PathPrefix "/chat").decorate_request
            ⟨some ⟨some sch, some au, some "/"⟩, hs⟩).bind
          (fun b2 => Option.map Uri.path b2.uri)) = some "/chat/") :=
  ⟨fun _ _ _ => rfl, fun _ _ _ => rfl⟩

/-- C4: `Alpn` has exactly the two choices HTTP/1.1 and HTTP/2, and its byte
encoding is the length-prefixed wire token: `0x08` followed by the bytes of
`http/1.1`, and `0x02` followed by the bytes of `h2`, the leading byte being
the length of the token that follows. -/
theorem alpn_wire_encoding :
    ( Alpn.as_ref Alpn.Http1_1 = 0x08 :: stringBytes "http/1.1")
  ∧ ( Alpn.as_ref Alpn.Http2 = 0x02 :: stringBytes "h2")
  ∧ (stringBytes "http/1.1").length = 0x08
  ∧ (stringBytes "h2").length = 0x02
  ∧ (∀ a : Alpn, a = Alpn.Http1_1 ∨ a = Alpn.Http2) := by
  refine ⟨by decide, by decide, by decide, by decide, fun a => ?_⟩
  cases a
  · exact Or.inl rfl
  · exact Or.inr rfl

/-- C5: the IP-family classification of a `ConnectionInfo` is computed on
demand from its stored address and is not a separate field:
`IpType::from_host` maps domains to `Unknown`, IPv4 to `V4` and IPv6 to `V6`;
a `ConnectionInfo` is exactly its `route_type`, `dns_source` and `address`;
and `description` derives the IP type from the address on demand (checked on
the concrete value from the repository's own test). -/
theorem ip_type_computed_on_demand :
    (∀ s, IpType.from_host ( Host.Domain s) = IpType.Unknown)
  ∧ (∀ a, IpType.from_host ( Host.Ipv4 a) = IpType.V4)
  ∧ (∀ a, IpType.from_host ( Host.Ipv6 a) = IpType.V6)
  ∧ (∀ c : ConnectionInfo, c = ⟨c.route_type, c.dns_source, c.address⟩)
  ∧ (∀ c : ConnectionInfo,
      c.description = "route=" ++ c.route_type.display ++ ";dns_source=" ++
        c.dns_source.display ++ ";ip_type=" ++ ( IpType.from_host c.address).debugFmt)
  ∧ ConnectionInfo.description ⟨.Test, .SystemLookup, .Domain "test.signal.org"⟩
      = "route=test;dns_source=systemlookup;ip_type=Unknown" :=
  ⟨fun _ => rfl, fun _ => rfl, fun _ => rfl, fun _ => rfl, fun _ => rfl, rfl⟩

/-- C6: the builder-style mutators of `ConnectionParams` return a new value
changing only their target field: `with_certs` only replaces `certs`,
`with_confirmation_header` only sets `connection_confirmation_header` to
`some` of the given header, and `with_decorator` only appends the given
decorator at the end of the decorator sequence. -/
theorem connection_params_mutators_frame (p : ConnectionParams) (c : RootCertificates)
    (hdr : HeaderName) (d : HttpRequestDecorator) :
    p.with_certs c = { p with certs := c }
  ∧ p.with_confirmation_header hdr = { p with connection_confirmation_header := some hdr }
  ∧ p.with_decorator d
      = { p with
            http_request_decorator := ⟨p.http_request_decorator.decorators ++ [d]⟩ } :=
  ⟨rfl, rfl, rfl⟩

/-- C7: every constructible `ConnectionParams` has a nonzero port: the port
field is a `NonZeroU16`, so any value built via `ConnectionParams::new` has a
positive port, every `ConnectionParams` whatsoever has a positive port, and
each `with_*` mutator leaves the port unchanged. -/
theorem connection_params_port_nonzero :
    (∀ (rt : RouteType) (sni host : String) (port : NonZeroU16)
        (dec : HttpRequestDecoratorSeq) (certs : RootCertificates),
        0 < ( ConnectionParams.new rt sni host port dec certs).port.val)
  ∧ (∀ p : ConnectionParams, 0 < p.port.val)
  ∧ (∀ (p : ConnectionParams) (c : RootCertificates), (p.with_certs c).port = p.port)
  ∧ (∀ (p : ConnectionParams) (hdr : HeaderName),
        (p.with_confirmation_header hdr).port = p.port)
  ∧ (∀ (p : ConnectionParams) (d : HttpRequestDecorator),
        (p.with_decorator d).port = p.port) :=
  ⟨fun _ _ _ port _ _ => port.2.1, fun p => p.port.2.1,
    fun _ _ => rfl, fun _ _ => rfl, fun _ _ => rfl⟩

/-- C8: the `PathPrefix` decorator prepends the prefix to the whole
path-and-query string, preserving the query: with prefix `/chat`, the
path-and-query `/v1?a=b` becomes `/chat/v1?a=b`, and a URI with no
path-and-query at all gets exactly the prefix, for any scheme, authority and
headers. -/
theorem path_prefix_preserves_query :
    (∀ (sch au : String) (hs : List (HeaderName × HeaderValue)),
        ( HttpRequestDecorator.PathPrefix "/chat").decorate_request
            ⟨some ⟨some sch, some au, some "/v1?a=b"⟩, hs⟩
          = some ⟨some ⟨some sch, some au, some "/chat/v1?a=b"⟩, hs⟩)
  ∧ (∀ (sch au : String) (hs : List (HeaderName × HeaderValue)),
        ( HttpRequestDecorator.PathPrefix "/chat").decorate_request
            ⟨some ⟨some sch, some au, none⟩, hs⟩
          = some ⟨some ⟨some sch, some au, some "/chat"⟩, hs⟩) :=
  ⟨fun _ _ _ => rfl, fun _ _ _ => rfl⟩

/-- C9 (counterexample): the claim's stated precondition is not enough to
rule out the panic branches.  The builder whose URI is the authority-form
`proxy.example.com` (no scheme, no path-and-query) has a URI set, and the
prefix `/chat` concatenated with its (absent) path-and-query parses as a
valid path-and-query, yet decoration hits the `valid uri` expect (the rebuilt
parts have an authority but no scheme) and panics (`none`). -/
theorem path_prefix_expect_counterexample :
    (⟨some ⟨none, some "proxy.example.com", none⟩, []⟩ : Builder).uri
        = some ⟨none, some "proxy.example.com", none⟩
  ∧ PathAndQuery.from_str (decoratedPq "/chat" ⟨none, some "proxy.example.com", none⟩)
      = some "/chat"
  ∧ ( HttpRequestDecorator.PathPrefix "/chat").decorate_request
      ⟨some ⟨none, some "proxy.example.com", none⟩, []⟩ = none :=
  ⟨rfl, rfl, rfl⟩

/-- C9 (amended): `decorate_request` with a `PathPrefix` panics when the
builder has no URI or when the prefixed path-and-query fails to parse, and
under the amended precondition — URI set, prefixed path-and-query valid, and
the URI's scheme and authority either both present or both absent (so the
rebuilt URI is valid) — the panic branches are unreachable. -/
theorem path_prefix_safe_under_valid_uri :
    (∀ (b : Builder) (pfx : String), b.uri = none →
        ( HttpRequestDecorator.PathPrefix pfx).decorate_request b = none)
  ∧ (∀ (b : Builder) (u : Uri) (pfx : String), b.uri = some u →
        PathAndQuery.from_str (decoratedPq pfx u) = none →
        ( HttpRequestDecorator.PathPrefix pfx).decorate_request b = none)
  ∧ (∀ (b : Builder) (u : Uri) (pfx : String), b.uri = some u →
        u.scheme.isSome = u.authority.isSome →
        ( PathAndQuery.from_str (decoratedPq pfx u)).isSome = true →
        (( HttpRequestDecorator.PathPrefix pfx).decorate_request b).isSome = true) := by
  refine ⟨?_, ?_, ?_⟩
  · intro b pfx hb
    simp [HttpRequestDecorator.decorate_request, hb]
  · intro b u pfx hb hpq
    simp [HttpRequestDecorator.decorate_request, hb, hpq]
  · intro b u pfx hb hsa hpq
    rcases hpq2 : PathAndQuery.from_str (decoratedPq pfx u) with _ | pq2
    · rw [hpq2] at hpq
      simp at hpq
    · simp only [HttpRequestDecorator.decorate_request, hb, hpq2]
      rcases u with ⟨sch, au, upq⟩
      cases sch <;> cases au <;> simp_all [Uri.from_parts]

/-- C9 (witness): the safety direction applies to a concrete well-formed
request, so decoration succeeds there. -/
theorem path_prefix_safe_under_valid_uri_witness :
    (( HttpRequestDecorator.PathPrefix "/chat").decorate_request
        ⟨some ⟨some "https", some "chat.signal.org", some "/v1"⟩, []⟩).isSome = true :=
  path_prefix_safe_under_valid_uri.2.2
    ⟨some ⟨some "https", some "chat.signal.org", some "/v1"⟩, []⟩
    ⟨some "https", some "chat.signal.org", some "/v1"⟩ "/chat" rfl rfl (by decide)

/-- C10: decorator sequences form a fold homomorphism over concatenation:
the empty (default) sequence decorates every builder to itself, and
decorating with the concatenation of two sequences equals decorating with the
first and then decorating the result with the second. -/
theorem decorator_seq_fold_homomorphism :
    (∀ b : Builder, HttpRequestDecoratorSeq.default.decorate_request b = some b)
  ∧ (∀ (l1 l2 : List HttpRequestDecorator) (b : Builder),
      ( HttpRequestDecoratorSeq.mk (l1 ++ l2)).decorate_request b
        = (( HttpRequestDecoratorSeq.mk l1).decorate_request b).bind
            (fun b2 => ( HttpRequestDecoratorSeq.mk l2).decorate_request b2)) := by
  constructor
  · intro b
    rfl
  · intro l1 l2 b
    have h0 : ( HttpRequestDecoratorSeq.mk (l1 ++ l2)).decorate_request b
        = decorateSequentially (l1 ++ l2) b := foldlM_decorate_eq_sequential (l1 ++ l2) b
    have h1 : ( HttpRequestDecoratorSeq.mk l1).decorate_request b
        = decorateSequentially l1 b := foldlM_decorate_eq_sequential l1 b
    have h2 : ∀ b2 : Builder, ( HttpRequestDecoratorSeq.mk l2).decorate_request b2
        = decorateSequentially l2 b2 := fun b2 => foldlM_decorate_eq_sequential l2 b2
    simp only [h0, h1, h2, decorateSequentially_append]

end SignalNetInfra
